import Mathlib

/-!
Verification of the agent execution loop of the browser-use repository.

The development shallowly embeds the code of `browser_use/agent/service.py`
and `browser_use/agent/views.py`: pure Python functions become Lean
functions, the mutable fields of the `Agent` object become a record
`AgentState` threaded explicitly, Python exceptions become an explicit
`PyError` value, and the behaviour of the external collaborators (browser,
language model, controller dispatch) is supplied per step through a
`StepEvent` oracle, matching the interface-boundary treatment of the
external collaborators in the design document.
-/

namespace BrowserUse

/-- Information about a browser tab, from `browser_use/browser/views.py`
(`TabInfo`): handle, url and title. -/
structure TabInfo where
  handle : String
  url : String
  title : String
deriving DecidableEq, Repr

/-- The environment snapshot, from `browser_use/browser/views.py`
(`BrowserState`). The DOM-content fields inherited from
`ProcessedDomContent` (items, selector map) live in `browser_use/dom`,
whose service internals are out of scope; they are abstracted here into a
single `content` string, which the loop never inspects. -/
structure BrowserState where
  content : String := ""
  url : String := ""
  title : String := ""
  current_tab_handle : String := ""
  tabs : List TabInfo := []
  screenshot : Option String := none
deriving DecidableEq, Repr

/-- Details of token usage, from `browser_use/agent/views.py`
(`TokenDetails`): audio, cache read and reasoning token counts, all
defaulting to zero. Python integers are embedded as `Int`. -/
structure TokenDetails where
  audio : Int := 0
  cache_read : Int := 0
  reasoning : Int := 0
deriving DecidableEq, Repr

/-- Cumulative token usage, from `browser_use/agent/views.py`
(`TokenUsage`). -/
structure TokenUsage where
  input_tokens : Int
  output_tokens : Int
  total_tokens : Int
  input_token_details : TokenDetails := {}
  output_token_details : TokenDetails := {}
deriving DecidableEq, Repr

/-- Pricing per one million tokens, from `browser_use/agent/views.py`
(`Pricing`). Python floats are embedded as exact rationals; every
constant in the catalog is exactly representable. -/
structure Pricing where
  uncached_input : ℚ
  cached_input : ℚ
  output : ℚ
deriving DecidableEq, Repr

/-- The pricing catalog with its default entries, from
`browser_use/agent/views.py` (`ModelPricingCatalog`). -/
structure ModelPricingCatalog where
  gpt_4o : Pricing := { uncached_input := 2.50, cached_input := 1.25, output := 10.00 }
  gpt_4o_mini : Pricing := { uncached_input := 0.15, cached_input := 0.075, output := 0.60 }
  claude_3_5_sonnet : Pricing := { uncached_input := 3.00, cached_input := 1.50, output := 15.00 }
deriving DecidableEq, Repr

/-- The result of executing an action, from `browser_use/agent/views.py`
(`ActionResult`). `is_done` is `Optional[bool]` with default `False`,
hence `Option Bool` with default `some false`. -/
structure ActionResult where
  is_done : Option Bool := some false
  extracted_content : Option String := none
  error : Option String := none
deriving DecidableEq, Repr

/-- The reasoning-state record of the model output, from
`browser_use/agent/views.py` (`AgentBrain`). -/
structure AgentBrain where
  valuation_previous_goal : String
  memory : String
  next_goal : String
deriving DecidableEq, Repr

/-- Modelled from the spec: `ActionModel` is the dynamic discriminated
union built by `controller.registry.create_action_model()`;
`browser_use/controller/registry` is not under src. Per the design
document an action call is a tagged variant carrying one named action and
its typed parameters, embedded here as the active variant name plus an
opaque parameter payload. The loop never inspects it. -/
structure ActionModel where
  name : String
  params : String := ""
deriving DecidableEq, Repr

/-- The structured model output, from `browser_use/agent/views.py`
(`AgentOutput`): a reasoning state plus one action call. -/
structure AgentOutput where
  current_state : AgentBrain
  action : ActionModel
deriving DecidableEq, Repr

/-- One history record, from `browser_use/agent/views.py`
(`AgentHistory`): optional model output, result, and the snapshot. -/
structure AgentHistory where
  model_output : Option AgentOutput
  result : ActionResult
  state : BrowserState
deriving DecidableEq, Repr

/-- Python exceptions relevant to `Agent._handle_step_error` and
`AgentError.format_error`, by the isinstance classes the code tests:
pydantic `ValidationError`, builtin `ValueError`, openai `RateLimitError`,
and any other exception. Each carries its `str(error)` rendering. -/
inductive PyError where
  | validationError (msg : String)
  | valueError (msg : String)
  | rateLimitError (msg : String)
  | otherError (msg : String)
deriving DecidableEq, Repr

/-- The `str(error)` rendering carried by an embedded exception. -/
def PyError.msg : PyError → String
  | .validationError m => m
  | .valueError m => m
  | .rateLimitError m => m
  | .otherError m => m

namespace AgentError

/-- Constant from `AgentError` in `browser_use/agent/views.py`. -/
def VALIDATION_ERROR : String :=
  "Invalid model output format. Please follow the correct schema."

/-- Constant from `AgentError` in `browser_use/agent/views.py`. -/
def RATE_LIMIT_ERROR : String :=
  "Rate limit reached. Waiting before retry."

/-- Constant from `AgentError` in `browser_use/agent/views.py`. -/
def NO_VALID_ACTION : String :=
  "No valid action found"

/-- `AgentError.format_error` from `browser_use/agent/views.py`: a
pydantic `ValidationError` gets the validation prefix plus details; every
other exception gets the generic prefix plus its message. -/
def format_error : PyError → String
  | .validationError m => VALIDATION_ERROR ++ "\nDetails: " ++ m
  | e => "Unexpected error: " ++ e.msg

end AgentError

/-- Role-tagged conversation messages, standing for the langchain
`SystemMessage`, `HumanMessage` and `AIMessage` classes used in
`browser_use/agent/service.py`. -/
inductive Message where
  | system (content : String)
  | human (content : String)
  | ai (content : String)
deriving DecidableEq, Repr

/-- Python truthiness of an `Optional[str]` field, as used by the
`if result.extracted_content:` and `if result.error:` tests in
`Agent.step` and `Agent._update_messages_with_result`: `None` and the
empty string are falsy. -/
def optStrTruthy : Option String → Bool
  | none => false
  | some c => decide (c ≠ "")

/-- Modelled from the spec: the system prompt text produced by
`SystemPrompt.get_system_message` in `browser_use/agent/prompts.py`,
which is not under src. The design document only requires a fixed system
message built from the action descriptions; its exact text is never
inspected by the loop. -/
def systemPromptText : String :=
  "System prompt with action descriptions"

/-- Modelled from the spec: the rendered observation message produced by
`AgentMessagePrompt(state).get_message_for_history()` in
`browser_use/agent/prompts.py`, which is not under src. The design
document only requires one observation message derived from the
snapshot. -/
def messageForHistory (state : BrowserState) : Message :=
  .human ("Observation: " ++ state.url ++ " " ++ state.title)

/-- Serialization of the model output used for the appended decision
message, standing for the pydantic `model_dump_json(exclude_unset=True)`
call in `Agent._update_message_history`. Its exact text is never
inspected by the loop. -/
def AgentOutput.dumpJson (o : AgentOutput) : String :=
  o.current_state.valuation_previous_goal ++ "|" ++ o.current_state.memory
    ++ "|" ++ o.current_state.next_goal ++ "|" ++ o.action.name ++ "|" ++ o.action.params

/-- The mutable fields of the `Agent` object in
`browser_use/agent/service.py`, threaded explicitly, together with ghost
observation fields recording externally visible effects: `closeCalls`
counts `controller.browser.close()` invocations, `observeCalls` counts
`controller.browser.get_state` invocations (steps begun),
`snapshotsObtained` counts `get_state` calls that returned a snapshot,
`sleeps` records `time.sleep` durations, and `logs` records the error and
warning log lines of `_handle_step_error`. -/
structure AgentState where
  messages : List Message
  history : List AgentHistory
  n_steps : Nat
  consecutive_failures : Nat
  max_failures : Nat
  retry_delay : Nat
  controller_injected : Bool
  closeCalls : Nat
  observeCalls : Nat
  snapshotsObtained : Nat
  sleeps : List Nat
  logs : List String
deriving DecidableEq, Repr

/-- The state set up by `Agent.__init__`: a system message plus the task
message, empty history, `n_steps = 1`, zero consecutive failures.
`controller_injected` records whether the caller passed a controller
(`controller is not None`). The Python defaults are `max_failures = 5`
and `retry_delay = 10`. -/
def initState (task : String) (controller_injected : Bool)
    (max_failures retry_delay : Nat) : AgentState where
  messages := [.system systemPromptText, .human ("Your task is: " ++ task)]
  history := []
  n_steps := 1
  consecutive_failures := 0
  max_failures := max_failures
  retry_delay := retry_delay
  controller_injected := controller_injected
  closeCalls := 0
  observeCalls := 0
  snapshotsObtained := 0
  sleeps := []
  logs := []

/-- The log-line header of `Agent._handle_step_error`: the string
interpolation of `Result failed N/M times` with the failure count about
to be reached and the ceiling. -/
def failureHeader (s : AgentState) : String :=
  "❌ Result failed " ++ toString (s.consecutive_failures + 1) ++ "/"
    ++ toString s.max_failures ++ " times:\n "

/-- `Agent._handle_step_error` from `browser_use/agent/service.py`:
formats the error, logs the header plus the formatted message (error
level for validation and unclassified errors, warning level for rate
limits), sleeps for `retry_delay` on a rate limit, increments
`consecutive_failures` in every branch, and returns an `ActionResult`
whose `error` is the formatted message. -/
def handle_step_error (e : PyError) (s : AgentState) : AgentState × ActionResult :=
  let error_msg := AgentError.format_error e
  let line := failureHeader s ++ error_msg
  let s1 : AgentState :=
    match e with
    | .validationError _ | .valueError _ =>
        { s with logs := s.logs ++ [line],
                 consecutive_failures := s.consecutive_failures + 1 }
    | .rateLimitError _ =>
        { s with logs := s.logs ++ [line],
                 sleeps := s.sleeps ++ [s.retry_delay],
                 consecutive_failures := s.consecutive_failures + 1 }
    | .otherError _ =>
        { s with logs := s.logs ++ [line],
                 consecutive_failures := s.consecutive_failures + 1 }
  (s1, { error := some error_msg })

/-- `Agent._update_messages_with_result` from
`browser_use/agent/service.py`: appends a human message for a truthy
`extracted_content` and a human message for a truthy `error`. -/
def update_messages_with_result (result : ActionResult) (s : AgentState) : AgentState :=
  let s1 :=
    if optStrTruthy result.extracted_content then
      { s with messages := s.messages ++ [.human (result.extracted_content.getD "")] }
    else s
  if optStrTruthy result.error then
    { s1 with messages := s1.messages ++ [.human (result.error.getD "")] }
  else s1

/-- `Agent._make_history_item` from `browser_use/agent/service.py`:
appends one `AgentHistory` record. -/
def make_history_item (model_output : Option AgentOutput) (state : BrowserState)
    (result : ActionResult) (s : AgentState) : AgentState :=
  { s with history := s.history ++ [⟨model_output, result, state⟩] }

/-- `Agent._update_message_history` from `browser_use/agent/service.py`,
called inside `get_next_action` once the model output is parsed: appends
the rendered observation message and the serialized decision message and
increments `n_steps`. -/
def update_message_history (state : BrowserState) (response : AgentOutput)
    (s : AgentState) : AgentState :=
  { s with
      messages := s.messages ++ [messageForHistory state, .ai response.dumpJson],
      n_steps := s.n_steps + 1 }

/-- The behaviour of the external collaborators during one call of
`Agent.step`, supplied as an oracle: `get_state` raises, or the model
call inside `get_next_action` raises after the snapshot was obtained, or
the model output is obtained and `controller.act` raises, or the model
output is obtained and `controller.act` returns a result.
`Controller.act` is not under src; per the design document the
dispatcher may raise (its section 9 note records that a dispatch raise is
treated as a loop-level failure), so a raising dispatch is a possible
event. -/
inductive StepEvent where
  | observeRaises (e : PyError)
  | decideRaises (state : BrowserState) (e : PyError)
  | dispatchRaises (state : BrowserState) (out : AgentOutput) (e : PyError)
  | actOk (state : BrowserState) (out : AgentOutput) (result : ActionResult)
deriving DecidableEq, Repr

/-- `Agent.step` from `browser_use/agent/service.py` on one step event.
`get_state` is called outside the try block, so an observe failure
propagates as an exception (second component `some e`) with nothing
appended. Otherwise the try block runs: on model success the
observation and decision messages are appended and `n_steps` is
incremented (inside `get_next_action`); on dispatch success
`consecutive_failures` is reset to 0; on any exception from the try
block `_handle_step_error` runs and `model_output` is set to `None`.
Finally `_update_messages_with_result` and `_make_history_item` run. -/
def stepExec (ev : StepEvent) (s : AgentState) : AgentState × Option PyError :=
  match ev with
  | .observeRaises e =>
      ({ s with observeCalls := s.observeCalls + 1 }, some e)
  | .decideRaises state e =>
      let s1 := { s with observeCalls := s.observeCalls + 1,
                         snapshotsObtained := s.snapshotsObtained + 1 }
      let (s2, result) := handle_step_error e s1
      let s3 := update_messages_with_result result s2
      (make_history_item none state result s3, none)
  | .dispatchRaises state out e =>
      let s1 := { s with observeCalls := s.observeCalls + 1,
                         snapshotsObtained := s.snapshotsObtained + 1 }
      let s2 := update_message_history state out s1
      let (s3, result) := handle_step_error e s2
      let s4 := update_messages_with_result result s3
      (make_history_item none state result s4, none)
  | .actOk state out result =>
      let s1 := { s with observeCalls := s.observeCalls + 1,
                         snapshotsObtained := s.snapshotsObtained + 1 }
      let s2 := update_message_history state out s1
      let s3 := { s2 with consecutive_failures := 0 }
      let s4 := update_messages_with_result result s3
      (make_history_item (some out) state result s4, none)

/-- `Agent._too_many_failures` from `browser_use/agent/service.py`. -/
def too_many_failures (s : AgentState) : Bool :=
  decide (s.max_failures ≤ s.consecutive_failures)

/-- The Python truthiness test `bool(history and history[-1].result.is_done)`
on the history list, used by `Agent._is_task_complete`. -/
def isDoneLast (hs : List AgentHistory) : Bool :=
  match hs.getLast? with
  | some h => h.result.is_done.getD false
  | none => false

/-- `Agent._is_task_complete` from `browser_use/agent/service.py`. -/
def is_task_complete (s : AgentState) : Bool :=
  isDoneLast s.history

/-- The outcome of `Agent.run`: `succeeded` for the break on
`_is_task_complete`, `failedPermanently` for the break on
`_too_many_failures`, `stepBudgetExhausted` for the for-else branch
(maximum steps reached), and `raised e` when an exception propagates out
of a step (and hence out of `run`, after its finally block). -/
inductive RunOutcome where
  | succeeded
  | failedPermanently
  | stepBudgetExhausted
  | raised (e : PyError)
deriving DecidableEq, Repr

/-- The for loop of `Agent.run`: for each of the at most `max_steps`
iterations, break with a permanent failure if `_too_many_failures`,
otherwise execute one step (propagating an exception), then break with
success if `_is_task_complete`. The for-else branch reports the
exhausted step budget. `idx` indexes the step event oracle. -/
def runLoop (script : Nat → StepEvent) : Nat → Nat → AgentState → RunOutcome × AgentState
  | 0, _, s => (.stepBudgetExhausted, s)
  | fuel + 1, idx, s =>
      if too_many_failures s then (.failedPermanently, s)
      else
        match stepExec (script idx) s with
        | (s1, some e) => (.raised e, s1)
        | (s1, none) =>
            if is_task_complete s1 then (.succeeded, s1)
            else runLoop script fuel (idx + 1) s1

/-- `Agent.run` from `browser_use/agent/service.py` (the Python default
is `max_steps = 100`): runs the loop, then the finally block closes the
browser exactly when the controller was not injected by the caller. The
telemetry captures have no effect on the loop state. -/
def run (script : Nat → StepEvent) (max_steps : Nat) (s : AgentState) :
    RunOutcome × AgentState :=
  let (out, s1) := runLoop script max_steps 0 s
  let s2 :=
    if s1.controller_injected then s1
    else { s1 with closeCalls := s1.closeCalls + 1 }
  (out, s2)

/-- Which language-model client `Agent._calc_token_cost` sees, by the
isinstance branches of `browser_use/agent/service.py`: a `ChatOpenAI`
with its `model_name`, a `ChatAnthropic` with its `model`, or any other
client (no supported model name). -/
inductive LlmClient where
  | chatOpenAI (model_name : String)
  | chatAnthropic (model : String)
  | otherClient
deriving DecidableEq, Repr

/-- The model name extracted by the isinstance chain at the top of
`Agent._calc_token_cost`. -/
def modelNameOf : LlmClient → Option String
  | .chatOpenAI n => some n
  | .chatAnthropic n => some n
  | .otherClient => none

/-- `Agent._calc_token_cost` from `browser_use/agent/service.py`:
extracts the model name (returning 0 for unsupported clients), selects
the pricing catalog entry by exact name comparison (returning 0 for any
other name), and computes the cost from the accumulated usage with
`factor = 1e6`. Python float arithmetic is embedded as exact rational
arithmetic. -/
def calc_token_cost (llm : LlmClient) (usage : TokenUsage) : ℚ :=
  match modelNameOf llm with
  | none => 0
  | some model_name =>
      let pricing_catalog : ModelPricingCatalog := {}
      let price? : Option Pricing :=
        if model_name = "gpt-4o" then some pricing_catalog.gpt_4o
        else if model_name = "gpt-4o-mini" then some pricing_catalog.gpt_4o_mini
        else if model_name = "claude-3-5-sonnet-20240620" then
          some pricing_catalog.claude_3_5_sonnet
        else none
      match price? with
      | none => 0
      | some model_pricing =>
          let uncached_input_tokens : ℚ :=
            ((usage.input_tokens - usage.input_token_details.cache_read : Int) : ℚ)
          let factor : ℚ := 1000000
          (uncached_input_tokens / factor) * model_pricing.uncached_input
            + (((usage.input_token_details.cache_read : Int) : ℚ) / factor)
              * model_pricing.cached_input
            + (((usage.output_tokens : Int) : ℚ) / factor) * model_pricing.output

/-- Number of history records one step event appends: none when the
observe call raises, exactly one otherwise. -/
def recordsAppended : StepEvent → Nat
  | .observeRaises _ => 0
  | _ => 1

/-- Whether a model decision is successfully obtained during the step
event (the two events in which `get_next_action` returns). -/
def decisionObtained : StepEvent → Bool
  | .dispatchRaises _ _ _ => true
  | .actOk _ _ _ => true
  | _ => false

/-- Number of conversation messages one step event appends. -/
def messagesAppended : StepEvent → Nat
  | .observeRaises _ => 0
  | .decideRaises _ _ => 1
  | .dispatchRaises _ _ _ => 3
  | .actOk _ _ r =>
      2 + (if optStrTruthy r.extracted_content then 1 else 0)
        + (if optStrTruthy r.error then 1 else 0)

/-- Number of decision-obtained events among the first `n` entries of the
step event oracle. -/
def countDecisions (script : Nat → StepEvent) (n : Nat) : Nat :=
  (List.range n).countP (fun i => decisionObtained (script i))

section HelperLemmas

/-- A string with a nonempty left part is nonempty. -/
theorem append_ne_empty_of_left_ne (a b : String) (ha : a.length ≠ 0) : a ++ b ≠ "" := by
  intro h
  have hl := congrArg String.length h
  rw [String.length_append] at hl
  simp only [String.length_empty] at hl
  omega

/-- The formatted error message is never the empty string, since both
branches of `format_error` begin with a nonempty constant prefix. -/
theorem format_error_ne_empty (e : PyError) : AgentError.format_error e ≠ "" := by
  cases e <;>
    simp only [AgentError.format_error, PyError.msg] <;>
    exact append_ne_empty_of_left_ne _ _ (by decide)

/-- Python truthiness holds for the formatted error message. -/
theorem optStrTruthy_format (e : PyError) :
    optStrTruthy (some (AgentError.format_error e)) = true := by
  simp [optStrTruthy, format_error_ne_empty e]

/-- Explicit form of `handle_step_error`: one log line, a sleep exactly
on a rate limit, the failure counter incremented in every branch, and a
result carrying the formatted message. -/
theorem handle_step_error_eq (e : PyError) (s : AgentState) :
    handle_step_error e s =
      ({ s with
          logs := s.logs ++ [failureHeader s ++ AgentError.format_error e],
          sleeps := match e with
            | .rateLimitError _ => s.sleeps ++ [s.retry_delay]
            | _ => s.sleeps,
          consecutive_failures := s.consecutive_failures + 1 },
        { error := some (AgentError.format_error e) }) := by
  cases e <;> rfl

/-- Explicit form of `update_messages_with_result`: the appended suffix
is one human message per truthy field, in source order. -/
theorem update_messages_with_result_eq (r : ActionResult) (s : AgentState) :
    update_messages_with_result r s =
      { s with messages := s.messages
          ++ ((if optStrTruthy r.extracted_content then
                  [Message.human (r.extracted_content.getD "")] else [])
            ++ (if optStrTruthy r.error then
                  [Message.human (r.error.getD "")] else [])) } := by
  unfold update_messages_with_result
  split <;> split <;> simp

/-- Python truthiness of `None` is false. -/
theorem optStrTruthy_none : optStrTruthy none = false := rfl

/-- One step appends `recordsAppended` history records. -/
theorem stepExec_history_length (ev : StepEvent) (s : AgentState) :
    ((stepExec ev s).1).history.length = s.history.length + recordsAppended ev := by
  cases ev <;>
    simp [stepExec, handle_step_error_eq, update_messages_with_result_eq,
      make_history_item, update_message_history, recordsAppended]

/-- One step obtains `recordsAppended` snapshots: the snapshot is
obtained exactly when the step reaches the try block, which is also
exactly when it appends a record. -/
theorem stepExec_snapshots (ev : StepEvent) (s : AgentState) :
    ((stepExec ev s).1).snapshotsObtained = s.snapshotsObtained + recordsAppended ev := by
  cases ev <;>
    simp [stepExec, handle_step_error_eq, update_messages_with_result_eq,
      make_history_item, update_message_history, recordsAppended]

/-- Every step begins with exactly one `get_state` call. -/
theorem stepExec_observeCalls (ev : StepEvent) (s : AgentState) :
    ((stepExec ev s).1).observeCalls = s.observeCalls + 1 := by
  cases ev <;>
    simp [stepExec, handle_step_error_eq, update_messages_with_result_eq,
      make_history_item, update_message_history]

/-- `n_steps` is incremented exactly when a model decision is obtained,
because the increment happens in `_update_message_history`, which
`get_next_action` calls right after parsing the model output. -/
theorem stepExec_n_steps (ev : StepEvent) (s : AgentState) :
    ((stepExec ev s).1).n_steps =
      s.n_steps + (if decisionObtained ev then 1 else 0) := by
  cases ev <;>
    simp [stepExec, handle_step_error_eq, update_messages_with_result_eq,
      make_history_item, update_message_history, decisionObtained]

/-- A step never touches `closeCalls`. -/
theorem stepExec_closeCalls (ev : StepEvent) (s : AgentState) :
    ((stepExec ev s).1).closeCalls = s.closeCalls := by
  cases ev <;>
    simp [stepExec, handle_step_error_eq, update_messages_with_result_eq,
      make_history_item, update_message_history]

/-- A step never touches `controller_injected`. -/
theorem stepExec_injected (ev : StepEvent) (s : AgentState) :
    ((stepExec ev s).1).controller_injected = s.controller_injected := by
  cases ev <;>
    simp [stepExec, handle_step_error_eq, update_messages_with_result_eq,
      make_history_item, update_message_history]

/-- One step appends `messagesAppended` conversation messages. -/
theorem stepExec_messages_length (ev : StepEvent) (s : AgentState) :
    ((stepExec ev s).1).messages.length = s.messages.length + messagesAppended ev := by
  cases ev with
  | observeRaises e => simp [stepExec, messagesAppended]
  | decideRaises state e =>
      simp [stepExec, handle_step_error_eq, update_messages_with_result_eq,
        make_history_item, messagesAppended, optStrTruthy_none, optStrTruthy_format]
  | dispatchRaises state out e =>
      simp [stepExec, handle_step_error_eq, update_messages_with_result_eq,
        make_history_item, update_message_history, messagesAppended,
        optStrTruthy_none, optStrTruthy_format]
  | actOk state out r =>
      simp only [stepExec, update_message_history, update_messages_with_result_eq,
        make_history_item, messagesAppended]
      split <;> split <;> simp +arith

/-- When a step raises (only the observe failure does), the history is
left unchanged. -/
theorem stepExec_raised_history (ev : StepEvent) (s s1 : AgentState) (e : PyError)
    (h : stepExec ev s = (s1, some e)) : s1.history = s.history := by
  cases ev with
  | observeRaises e2 =>
      simp [stepExec] at h
      simp [← h.1]
  | decideRaises state e2 =>
      simp [stepExec, handle_step_error_eq, update_messages_with_result_eq,
        make_history_item] at h
  | dispatchRaises state out e2 =>
      simp [stepExec, handle_step_error_eq, update_messages_with_result_eq,
        make_history_item, update_message_history] at h
  | actOk state out r =>
      simp [stepExec, update_message_history, update_messages_with_result_eq,
        make_history_item] at h

/-- Along the loop, the history length always equals the number of
snapshots obtained. -/
theorem runLoop_hist_snap (script : Nat → StepEvent) (fuel : Nat) :
    ∀ (idx : Nat) (s : AgentState), s.history.length = s.snapshotsObtained →
      ((runLoop script fuel idx s).2).history.length =
        ((runLoop script fuel idx s).2).snapshotsObtained := by
  induction fuel with
  | zero => intro idx s h; simpa [runLoop] using h
  | succ n ih =>
      intro idx s h
      rw [runLoop]
      by_cases htm : too_many_failures s
      · simpa [htm] using h
      · rcases hse : stepExec (script idx) s with ⟨s1, exc⟩
        have h1 : s1.history.length = s1.snapshotsObtained := by
          have hh := stepExec_history_length (script idx) s
          have hs := stepExec_snapshots (script idx) s
          rw [hse] at hh hs
          simp only at hh hs
          omega
        cases exc with
        | some e => simpa [htm, hse] using h1
        | none =>
            by_cases hc : is_task_complete s1
            · simpa [htm, hse, hc] using h1
            · simpa [htm, hse, hc] using ih (idx + 1) s1 h1

/-- The loop never touches `closeCalls` or `controller_injected`. -/
theorem runLoop_closeCalls (script : Nat → StepEvent) (fuel : Nat) :
    ∀ (idx : Nat) (s : AgentState),
      ((runLoop script fuel idx s).2).closeCalls = s.closeCalls ∧
      ((runLoop script fuel idx s).2).controller_injected = s.controller_injected := by
  induction fuel with
  | zero => intro idx s; simp [runLoop]
  | succ n ih =>
      intro idx s
      rw [runLoop]
      by_cases htm : too_many_failures s
      · simp [htm]
      · rcases hse : stepExec (script idx) s with ⟨s1, exc⟩
        have hcc := stepExec_closeCalls (script idx) s
        have hci := stepExec_injected (script idx) s
        rw [hse] at hcc hci
        simp only at hcc hci
        cases exc with
        | some e => simp [htm, hse, hcc, hci]
        | none =>
            by_cases hc : is_task_complete s1
            · simp [htm, hse, hc, hcc, hci]
            · have := ih (idx + 1) s1
              simp [htm, hse, hc, this.1, this.2, hcc, hci]

/-- From a loop state that is not yet complete, the loop returns the
`succeeded` outcome exactly when its final state satisfies
`_is_task_complete`. -/
theorem runLoop_succeeded_iff (script : Nat → StepEvent) (fuel : Nat) :
    ∀ (idx : Nat) (s : AgentState), is_task_complete s = false →
      ((runLoop script fuel idx s).1 = RunOutcome.succeeded ↔
        is_task_complete (runLoop script fuel idx s).2 = true) := by
  induction fuel with
  | zero => intro idx s h; simp [runLoop, h]
  | succ n ih =>
      intro idx s h
      rw [runLoop]
      by_cases htm : too_many_failures s
      · simp [htm, h]
      · rcases hse : stepExec (script idx) s with ⟨s1, exc⟩
        cases exc with
        | some e =>
            have hhist := stepExec_raised_history (script idx) s s1 e hse
            have h1 : is_task_complete s1 = false := by
              simpa [is_task_complete, hhist] using h
            simp [htm, hse, h1]
        | none =>
            by_cases hc : is_task_complete s1
            · simp [htm, hse, hc]
            · simpa [htm, hse, hc] using
                ih (idx + 1) s1 (by simpa using hc)

/-- Counting decision-obtained events over one more oracle entry. -/
theorem countDecisions_succ (script : Nat → StepEvent) (n : Nat) :
    countDecisions script (n + 1) =
      countDecisions script n + (if decisionObtained (script n) then 1 else 0) := by
  simp [countDecisions, List.range_succ, List.countP_append, List.countP_cons]

/-- Along the loop, `n_steps` always equals one plus the number of
decision-obtained events among the steps begun so far. -/
theorem runLoop_nsteps_aux (script : Nat → StepEvent) (fuel : Nat) :
    ∀ (idx : Nat) (s : AgentState), idx = s.observeCalls →
      s.n_steps = 1 + countDecisions script s.observeCalls →
      ((runLoop script fuel idx s).2).n_steps =
        1 + countDecisions script ((runLoop script fuel idx s).2).observeCalls := by
  induction fuel with
  | zero => intro idx s _ h; simpa [runLoop] using h
  | succ n ih =>
      intro idx s hidx h
      rw [runLoop]
      by_cases htm : too_many_failures s
      · simpa [htm] using h
      · rcases hse : stepExec (script idx) s with ⟨s1, exc⟩
        have hobs : s1.observeCalls = s.observeCalls + 1 := by
          have hx := stepExec_observeCalls (script idx) s
          rw [hse] at hx
          simpa using hx
        have hns : s1.n_steps = 1 + countDecisions script s1.observeCalls := by
          have hx := stepExec_n_steps (script idx) s
          rw [hse] at hx
          simp only at hx
          rw [hx, hobs, ← hidx, countDecisions_succ, hidx, h, ← hidx]
          omega
        cases exc with
        | some e => simpa [htm, hse] using hns
        | none =>
            by_cases hc : is_task_complete s1
            · simpa [htm, hse, hc] using hns
            · simpa [htm, hse, hc] using
                ih (idx + 1) s1 (by rw [hobs, hidx]) hns

/-- A step whose decision attempt raises does not raise itself: the
exception is handled inside the try block. -/
theorem stepExec_decide_exc (bs : BrowserState) (e : PyError) (s : AgentState) :
    (stepExec (.decideRaises bs e) s).2 = none := by
  cases e <;>
    simp [stepExec, handle_step_error_eq, update_messages_with_result_eq,
      make_history_item]

/-- A step whose decision attempt raises increments the counter. -/
theorem stepExec_decide_cf (bs : BrowserState) (e : PyError) (s : AgentState) :
    ((stepExec (.decideRaises bs e) s).1).consecutive_failures =
      s.consecutive_failures + 1 := by
  simp [stepExec, handle_step_error_eq, update_messages_with_result_eq,
    make_history_item]

/-- A step never changes the configured failure ceiling. -/
theorem stepExec_max_failures (ev : StepEvent) (s : AgentState) :
    ((stepExec ev s).1).max_failures = s.max_failures := by
  cases ev <;>
    simp [stepExec, handle_step_error_eq, update_messages_with_result_eq,
      make_history_item, update_message_history]

/-- A step whose decision attempt raises appends exactly one record with
no decision and the formatted error as the result error. -/
theorem stepExec_decide_history (bs : BrowserState) (e : PyError) (s : AgentState) :
    ((stepExec (.decideRaises bs e) s).1).history =
      s.history ++
        [{ model_output := none,
           result := { error := some (AgentError.format_error e) },
           state := bs }] := by
  simp [stepExec, handle_step_error_eq, update_messages_with_result_eq,
    make_history_item, optStrTruthy_none, optStrTruthy_format]

/-- From a loop state whose counter has reached the ceiling, the loop
returns at once with the state unchanged. -/
theorem runLoop_at_ceiling (script : Nat → StepEvent) (fuel idx : Nat)
    (s : AgentState) (h : s.max_failures ≤ s.consecutive_failures) :
    runLoop script fuel idx s =
      ((if fuel = 0 then RunOutcome.stepBudgetExhausted
        else RunOutcome.failedPermanently), s) := by
  cases fuel <;> simp [runLoop, too_many_failures, h]

/-- Behaviour of the loop when every oracle entry is an unclassified
decision failure, from any loop state below the ceiling whose history
records all carry non-empty errors: the counter rises to the saturated
value, one record per executed step is appended, a permanent failure is
reported exactly when an iteration remains after the ceiling is reached,
and every final record carries a non-empty error. -/
theorem allFailLoop (st : Nat → BrowserState) (msg : Nat → String) (fuel : Nat) :
    ∀ (idx : Nat) (s : AgentState),
      s.consecutive_failures < s.max_failures →
      (∀ h ∈ s.history, ∃ e2, h.result.error = some e2 ∧ e2 ≠ "") →
      (((runLoop (fun i => StepEvent.decideRaises (st i) (.otherError (msg i)))
            fuel idx s).2).consecutive_failures
          = min s.max_failures (s.consecutive_failures + fuel) ∧
        ((runLoop (fun i => StepEvent.decideRaises (st i) (.otherError (msg i)))
            fuel idx s).2).history.length
          = s.history.length
            + (min s.max_failures (s.consecutive_failures + fuel)
                - s.consecutive_failures) ∧
        ((runLoop (fun i => StepEvent.decideRaises (st i) (.otherError (msg i)))
            fuel idx s).1 = RunOutcome.failedPermanently ↔
          s.max_failures - s.consecutive_failures < fuel) ∧
        (∀ h ∈ ((runLoop (fun i => StepEvent.decideRaises (st i) (.otherError (msg i)))
            fuel idx s).2).history,
          ∃ e2, h.result.error = some e2 ∧ e2 ≠ "")) := by
  induction fuel with
  | zero =>
      intro idx s hlt hP
      simp only [runLoop]
      refine ⟨by omega, by omega, by simp, hP⟩
  | succ n ih =>
      intro idx s hlt hP
      rw [runLoop]
      have htm : too_many_failures s = false := by
        simp [too_many_failures]; omega
      rcases hse : stepExec (.decideRaises (st idx) (.otherError (msg idx))) s
        with ⟨s1, exc⟩
      have hexc : exc = none := by
        have hx := stepExec_decide_exc (st idx) (.otherError (msg idx)) s
        rw [hse] at hx
        simpa using hx
      subst hexc
      have hcf1 : s1.consecutive_failures = s.consecutive_failures + 1 := by
        have hx := stepExec_decide_cf (st idx) (.otherError (msg idx)) s
        rw [hse] at hx
        simpa using hx
      have hmf1 : s1.max_failures = s.max_failures := by
        have hx := stepExec_max_failures (.decideRaises (st idx) (.otherError (msg idx))) s
        rw [hse] at hx
        simpa using hx
      have hhist1 : s1.history = s.history ++
          [{ model_output := none,
             result := { error := some (AgentError.format_error (.otherError (msg idx))) },
             state := st idx }] := by
        have hx := stepExec_decide_history (st idx) (.otherError (msg idx)) s
        rw [hse] at hx
        simpa using hx
      have hdone : is_task_complete s1 = false := by
        simp [is_task_complete, isDoneLast, hhist1, List.getLast?_concat]
      have hP1 : ∀ h ∈ s1.history, ∃ e2, h.result.error = some e2 ∧ e2 ≠ "" := by
        intro h hmem
        rw [hhist1] at hmem
        rcases List.mem_append.1 hmem with hmem | hmem
        · exact hP h hmem
        · rcases List.mem_singleton.1 hmem with rfl
          exact ⟨AgentError.format_error (.otherError (msg idx)), rfl,
            format_error_ne_empty _⟩
      simp only [htm, Bool.false_eq_true, if_false, hdone]
      rcases Nat.lt_or_ge (s.consecutive_failures + 1) s.max_failures with hlt1 | hge1
      · have hih := ih (idx + 1) s1 (by omega) hP1
        rw [hcf1, hmf1] at hih
        refine ⟨?_, ?_, ?_, hih.2.2.2⟩
        · rw [hih.1]; omega
        · rw [hih.2.1, hhist1]; simp; omega
        · rw [hih.2.2.1]; omega
      · rw [runLoop_at_ceiling _ n (idx + 1) s1 (by omega)]
        refine ⟨by rw [hcf1]; omega, ?_, ?_, hP1⟩
        · rw [hhist1]; simp; omega
        · rcases n with _ | n2 <;> simp <;> omega

end HelperLemmas

/-- A concrete snapshot for concrete executions. -/
def sampleBrowserState : BrowserState :=
  { url := "https://example.com", title := "Example" }

/-- A concrete model output for concrete executions. -/
def sampleOutput : AgentOutput :=
  { current_state := { valuation_previous_goal := "Success", memory := "m", next_goal := "g" },
    action := { name := "click_element", params := "index=1" } }

/-- The oracle of Scenario B: step 2 (index 1) returns a result with
`is_done = true`, every other step a plain result. -/
def scenarioBScript : Nat → StepEvent := fun i =>
  if i = 1 then .actOk sampleBrowserState sampleOutput { is_done := some true }
  else .actOk sampleBrowserState sampleOutput {}

/-- The oracle of Scenario C: a rate-limit failure on step 1 (index 0),
then a plain success. -/
def scenarioCScript : Nat → StepEvent := fun i =>
  if i = 0 then .decideRaises sampleBrowserState (.rateLimitError "limit")
  else .actOk sampleBrowserState sampleOutput {}

/-- C1 counterexample: a run whose first step fails while obtaining the
environment snapshot begins one step (one `get_state` call) but appends
no history record, because `get_state` is called outside the try block of
`Agent.step` and the exception propagates; so the log length does not
equal the number of steps begun, refuting the claim. -/
theorem c1_observe_failure_appends_nothing :
    (let r := run (fun _ => .observeRaises (.otherError "net down")) 1
        (initState "t" true 5 10)
     r.2.observeCalls = 1 ∧ r.2.history.length = 0 ∧
       r.1 = RunOutcome.raised (.otherError "net down")) :=
  ⟨rfl, rfl, rfl⟩

/-- C1 (amended): every step that obtains the snapshot appends exactly
one history record, whether it then succeeds or fails, while a step whose
observe call raises appends none and propagates the exception; hence over
any run the history length equals the number of snapshots obtained rather
than the number of steps begun. -/
theorem c1_one_record_per_snapshot :
    (∀ (ev : StepEvent) (s : AgentState),
        ((stepExec ev s).1).history.length = s.history.length + recordsAppended ev) ∧
    (∀ (script : Nat → StepEvent) (m : Nat) (task : String) (inj : Bool) (mf rd : Nat),
        ((run script m (initState task inj mf rd)).2).history.length =
          ((run script m (initState task inj mf rd)).2).snapshotsObtained) := by
  constructor
  · exact stepExec_history_length
  · intro script m task inj mf rd
    unfold run
    rcases hrl : runLoop script m 0 (initState task inj mf rd) with ⟨out, s1⟩
    have hinv := runLoop_hist_snap script m 0 (initState task inj mf rd) rfl
    rw [hrl] at hinv
    by_cases hinj : s1.controller_injected <;> simp [hinj, hinv]

/-- C3: a run from a fresh agent state ends with the `succeeded` outcome
exactly when the final state satisfies `_is_task_complete`, that is, when
the last appended history record has a true `is_done`; and in Scenario B
(`max_steps = 5`, step 2 returns `is_done = true`) the run stops after
exactly 2 steps with the `succeeded` outcome. -/
theorem c3_succeeded_iff_last_done :
    (∀ (script : Nat → StepEvent) (m : Nat) (task : String) (inj : Bool) (mf rd : Nat),
        ((run script m (initState task inj mf rd)).1 = RunOutcome.succeeded ↔
          is_task_complete (run script m (initState task inj mf rd)).2 = true)) ∧
    (run scenarioBScript 5 (initState "t" false 5 10)).1 = RunOutcome.succeeded ∧
    ((run scenarioBScript 5 (initState "t" false 5 10)).2).history.length = 2 := by
  refine ⟨?_, rfl, rfl⟩
  intro script m task inj mf rd
  unfold run
  rcases hrl : runLoop script m 0 (initState task inj mf rd) with ⟨out, s1⟩
  have hiff := runLoop_succeeded_iff script m 0 (initState task inj mf rd) rfl
  rw [hrl] at hiff
  by_cases hinj : s1.controller_injected <;>
    simpa [hinj, is_task_complete] using hiff

/-- C4: a step in which the model decision is obtained and dispatched
resets the consecutive-failure counter to exactly 0, whatever the
returned result (including one carrying an error); a step whose decision
attempt raises increments the counter by exactly 1; and in Scenario C (a
rate limit on step 1, success on step 2) the counter sequence is
`[1, 0]`, with the configured retry delay slept during step 1. -/
theorem c4_counter_reset_and_increment :
    (∀ (state : BrowserState) (out : AgentOutput) (result : ActionResult) (s : AgentState),
        ((stepExec (.actOk state out result) s).1).consecutive_failures = 0) ∧
    (∀ (state : BrowserState) (e : PyError) (s : AgentState),
        ((stepExec (.decideRaises state e) s).1).consecutive_failures =
          s.consecutive_failures + 1) ∧
    (let s0 := initState "t" true 5 10
     let s1 := (stepExec (scenarioCScript 0) s0).1
     let s2 := (stepExec (scenarioCScript 1) s1).1
     s1.consecutive_failures = 1 ∧ s2.consecutive_failures = 0 ∧
       s1.sleeps = [10] ∧ (run scenarioCScript 2 s0).2 = s2) := by
  refine ⟨?_, ?_, rfl, rfl, rfl, rfl⟩
  · intro state out result s
    simp [stepExec, update_message_history, update_messages_with_result_eq,
      make_history_item]
  · intro state e s
    simp [stepExec, handle_step_error_eq, update_messages_with_result_eq,
      make_history_item]

/-- C5: from any loop state in which the consecutive-failure counter has
reached the configured ceiling, the loop returns immediately with the
state unchanged — in particular without another `get_state` call — and
reports a permanent failure (or the exhausted budget when no iteration
remains). -/
theorem c5_stops_at_ceiling (script : Nat → StepEvent) (fuel idx : Nat)
    (s : AgentState) (h : s.max_failures ≤ s.consecutive_failures) :
    (runLoop script fuel idx s).2 = s ∧
    ((runLoop script fuel idx s).2).observeCalls = s.observeCalls ∧
    (runLoop script fuel idx s).1 =
      (if fuel = 0 then RunOutcome.stepBudgetExhausted
       else RunOutcome.failedPermanently) := by
  cases fuel <;> simp [runLoop, too_many_failures, h]

/-- Witness for C5 at a concrete state whose counter equals the ceiling:
the loop makes no further observe call. -/
theorem c5_stops_at_ceiling_witness :
    (let s := { initState "t" true 3 10 with consecutive_failures := 3 }
     s.max_failures ≤ s.consecutive_failures ∧
       ((runLoop (fun _ => .observeRaises (.otherError "x")) 7 0 s).2).observeCalls =
         s.observeCalls) :=
  ⟨by decide, (c5_stops_at_ceiling _ 7 0 _ (by decide)).2.1⟩

/-- C6 counterexample: a successful step whose result carries extracted
content appends three messages (observation, decision, and the extracted
content as an extra human message), not the claimed two: from the fresh
state with 2 messages the step reaches 5. -/
theorem c6_extra_message_on_extracted_content :
    (let s0 := initState "t" true 5 10
     let s1 := (stepExec (.actOk sampleBrowserState sampleOutput
         { extracted_content := some "data" }) s0).1
     s0.messages.length = 2 ∧ s1.messages.length = 5) :=
  ⟨rfl, rfl⟩

/-- C6 (amended): per step the conversation grows by one observation plus
one decision message on a successful model call, plus one extra message
for a truthy `extracted_content` and one for a truthy `error` in the
dispatched result; a step failing before a decision appends exactly one
recovery message; a step failing at dispatch after the decision appends
the observation and decision messages plus one recovery message; a step
whose observe call raises appends nothing. -/
theorem c6_message_growth (ev : StepEvent) (s : AgentState) :
    ((stepExec ev s).1).messages.length = s.messages.length + messagesAppended ev :=
  stepExec_messages_length ev s

/-- C9: on every exit path of `run` — success, permanent failure,
exhausted budget, or a propagating exception — the browser is closed
exactly once when the controller was constructed by the agent itself
(`controller_injected = false`), and never when the caller supplied the
controller. -/
theorem c9_close_exactly_once_iff_owned (script : Nat → StepEvent) (m : Nat)
    (task : String) (inj : Bool) (mf rd : Nat) :
    ((run script m (initState task inj mf rd)).2).closeCalls =
      (if inj then 0 else 1) := by
  unfold run
  rcases hrl : runLoop script m 0 (initState task inj mf rd) with ⟨out, s1⟩
  have hcc := runLoop_closeCalls script m 0 (initState task inj mf rd)
  rw [hrl] at hcc
  simp only [initState] at hcc
  rcases hcc with ⟨h1, h2⟩
  by_cases hinj : inj <;> simp [h2, hinj, h1]

/-- C10 counterexample: a step in which the model decision is obtained
but the dispatch then raises is a failed step (its record carries an
error and no decision, and the failure counter is incremented), yet
`n_steps` is incremented from 1 to 2, refuting the clause that failed
steps never increment `n_steps`. -/
theorem c10_failed_dispatch_increments_nsteps :
    (let r := run (fun _ => .dispatchRaises sampleBrowserState sampleOutput
        (.valueError "kaboom")) 1 (initState "t" true 5 10)
     r.2.n_steps = 2 ∧ r.2.consecutive_failures = 1 ∧
       r.2.history.map (fun h => (h.model_output, h.result.error)) =
         [(none, some "Unexpected error: kaboom")]) :=
  ⟨rfl, rfl, rfl⟩

/-- C10 (amended): `n_steps` equals 1 plus the number of steps in which a
model decision was successfully obtained; a step failing before a
decision never increments it, but a failed step whose decision was
obtained and whose dispatch raised does increment it. -/
theorem c10_nsteps_counts_obtained_decisions :
    (∀ (ev : StepEvent) (s : AgentState),
        ((stepExec ev s).1).n_steps =
          s.n_steps + (if decisionObtained ev then 1 else 0)) ∧
    (∀ (script : Nat → StepEvent) (m : Nat) (task : String) (inj : Bool) (mf rd : Nat),
        ((run script m (initState task inj mf rd)).2).n_steps =
          1 + countDecisions script
                ((run script m (initState task inj mf rd)).2).observeCalls) := by
  constructor
  · exact stepExec_n_steps
  · intro script m task inj mf rd
    unfold run
    rcases hrl : runLoop script m 0 (initState task inj mf rd) with ⟨out, s1⟩
    have hinv := runLoop_nsteps_aux script m 0 (initState task inj mf rd) rfl
      (by simp [initState, countDecisions])
    rw [hrl] at hinv
    simp only at hinv
    by_cases hinj : s1.controller_injected <;> simp [hinj, hinv]

/-- C2: with failure ceiling 3, when every step fails with an
unclassified model error and the step budget exceeds 3, the run stops
with the permanent-failure outcome after exactly 3 executed steps: the
history has length 3, the counter ends at 3, and every record carries a
non-empty error string. -/
theorem c2_ceiling_three_unclassified (m : Nat) (hm : 4 ≤ m)
    (task : String) (inj : Bool) (rd : Nat)
    (st : Nat → BrowserState) (msg : Nat → String) :
    (run (fun i => .decideRaises (st i) (.otherError (msg i))) m
        (initState task inj 3 rd)).1 = RunOutcome.failedPermanently ∧
    ((run (fun i => .decideRaises (st i) (.otherError (msg i))) m
        (initState task inj 3 rd)).2).history.length = 3 ∧
    ((run (fun i => .decideRaises (st i) (.otherError (msg i))) m
        (initState task inj 3 rd)).2).consecutive_failures = 3 ∧
    (∀ h ∈ ((run (fun i => .decideRaises (st i) (.otherError (msg i))) m
        (initState task inj 3 rd)).2).history,
      ∃ e, h.result.error = some e ∧ e ≠ "") := by
  have hinv := allFailLoop st msg m 0 (initState task inj 3 rd)
    (by simp [initState]) (by simp [initState])
  unfold run
  rcases hrl : runLoop (fun i => StepEvent.decideRaises (st i) (.otherError (msg i)))
      m 0 (initState task inj 3 rd) with ⟨out, s1⟩
  rw [hrl] at hinv
  simp only [initState, List.length_nil] at hinv
  obtain ⟨hcf, hlen, hout, hP⟩ := hinv
  have hmin : min 3 (0 + m) = 3 := by omega
  rw [hmin] at hcf hlen
  have hout2 : out = RunOutcome.failedPermanently := hout.mpr (by omega)
  by_cases hinj : s1.controller_injected <;>
    simp_all

/-- C7 counterexample: the failure kinds do not each get a kind-specific
prefix: `format_error` renders a rate-limit error exactly like an
unclassified error, with the generic prefix, never using the
`RATE_LIMIT_ERROR` constant; and a `ValueError`, which
`_handle_step_error` classifies with the validation kind, also gets the
generic prefix rather than the validation prefix. -/
theorem c7_rate_limit_not_kind_specific :
    AgentError.format_error (.rateLimitError "x") =
        AgentError.format_error (.otherError "x") ∧
    AgentError.format_error (.rateLimitError "x") = "Unexpected error: x" ∧
    AgentError.format_error (.valueError "x") = "Unexpected error: x" :=
  ⟨rfl, rfl, rfl⟩

/-- C7 (amended): `format_error` is a pure function on the error value:
a pydantic validation error is formatted as the validation prefix, a
details header and the original message, and every other error —
including rate limits and `ValueError` — as the one generic prefix plus
the original message; this exact string becomes the `ActionResult.error`
of the failed step and its recovery message, and the logged line is the
failure-count header followed by this same string. -/
theorem c7_uniform_error_string :
    (∀ m2, AgentError.format_error (.validationError m2) =
        AgentError.VALIDATION_ERROR ++ "\nDetails: " ++ m2) ∧
    (∀ m2, AgentError.format_error (.valueError m2) = "Unexpected error: " ++ m2) ∧
    (∀ m2, AgentError.format_error (.rateLimitError m2) = "Unexpected error: " ++ m2) ∧
    (∀ m2, AgentError.format_error (.otherError m2) = "Unexpected error: " ++ m2) ∧
    (∀ (e : PyError) (s : AgentState),
        (handle_step_error e s).2 =
            { error := some (AgentError.format_error e) } ∧
        ((handle_step_error e s).1).logs =
            s.logs ++ [failureHeader s ++ AgentError.format_error e]) ∧
    (∀ (bs : BrowserState) (e : PyError) (s : AgentState),
        ((stepExec (.decideRaises bs e) s).1).messages =
            s.messages ++ [.human (AgentError.format_error e)] ∧
        ((stepExec (.decideRaises bs e) s).1).history =
            s.history ++
              [{ model_output := none,
                 result := { error := some (AgentError.format_error e) },
                 state := bs }]) := by
  refine ⟨fun m2 => rfl, fun m2 => rfl, fun m2 => rfl, fun m2 => rfl, ?_, ?_⟩
  · intro e s
    rw [handle_step_error_eq]
    exact ⟨rfl, rfl⟩
  · intro bs e s
    refine ⟨?_, stepExec_decide_history bs e s⟩
    simp [stepExec, handle_step_error_eq, update_messages_with_result_eq,
      make_history_item, optStrTruthy_none, optStrTruthy_format]

/-- The cost formula exactly as the specification states it for one
pricing entry: uncached input tokens are the input tokens minus the
cached input tokens, and each bucket is priced per million tokens. -/
def specCost (p : Pricing) (u : TokenUsage) : ℚ :=
  (((u.input_tokens - u.input_token_details.cache_read : Int) : ℚ) / 1000000)
      * p.uncached_input
    + (((u.input_token_details.cache_read : Int) : ℚ) / 1000000) * p.cached_input
    + (((u.output_tokens : Int) : ℚ) / 1000000) * p.output

/-- The default pricing catalog instance built by `_calc_token_cost`. -/
def defaultCatalog : ModelPricingCatalog := {}

/-- C8: for each recognized model name the computed cost equals the
specification formula over the catalog entry keyed by that name, and for
every unrecognized model name — and for any client that is neither a
ChatOpenAI nor a ChatAnthropic — the cost is exactly 0 and no error is
raised. -/
theorem c8_token_cost_formula :
    (∀ u, calc_token_cost (.chatOpenAI "gpt-4o") u =
        specCost defaultCatalog.gpt_4o u) ∧
    (∀ u, calc_token_cost (.chatOpenAI "gpt-4o-mini") u =
        specCost defaultCatalog.gpt_4o_mini u) ∧
    (∀ u, calc_token_cost (.chatAnthropic "claude-3-5-sonnet-20240620") u =
        specCost defaultCatalog.claude_3_5_sonnet u) ∧
    (∀ (name2 : String) (u : TokenUsage), name2 ≠ "gpt-4o" →
        name2 ≠ "gpt-4o-mini" → name2 ≠ "claude-3-5-sonnet-20240620" →
        calc_token_cost (.chatOpenAI name2) u = 0 ∧
          calc_token_cost (.chatAnthropic name2) u = 0) ∧
    (∀ u, calc_token_cost .otherClient u = 0) := by
  refine ⟨fun u => ?_, fun u => ?_, fun u => ?_, ?_, fun u => rfl⟩
  · simp [calc_token_cost, modelNameOf, specCost, defaultCatalog]
  · simp [calc_token_cost, modelNameOf, specCost, defaultCatalog]
  · simp [calc_token_cost, modelNameOf, specCost, defaultCatalog]
  · intro name2 u h1 h2 h3
    constructor <;> simp [calc_token_cost, modelNameOf, h1, h2, h3]

/-- Witness for C8 at the concrete unrecognized model name `gpt-5` and a
concrete usage record: the cost is exactly 0 for both client kinds. -/
theorem c8_token_cost_formula_witness :
    calc_token_cost (.chatOpenAI "gpt-5")
        { input_tokens := 7, output_tokens := 11, total_tokens := 18 } = 0 ∧
    calc_token_cost (.chatAnthropic "gpt-5")
        { input_tokens := 7, output_tokens := 11, total_tokens := 18 } = 0 :=
  c8_token_cost_formula.2.2.2.1 "gpt-5"
    { input_tokens := 7, output_tokens := 11, total_tokens := 18 }
    (by decide) (by decide) (by decide)

/-- Witness for C2 at budget 10: the concrete all-failing run at ceiling
3 ends with the permanent-failure outcome and history length 3. -/
theorem c2_ceiling_three_unclassified_witness :
    (4 ≤ 10 ∧
      (run (fun _ => .decideRaises {} (.otherError "boom")) 10
          (initState "t" true 3 10)).1 = RunOutcome.failedPermanently ∧
      ((run (fun _ => .decideRaises {} (.otherError "boom")) 10
          (initState "t" true 3 10)).2).history.length = 3) :=
  ⟨by decide,
    (c2_ceiling_three_unclassified 10 (by decide) "t" true 10
        (fun _ => {}) (fun _ => "boom")).1,
    (c2_ceiling_three_unclassified 10 (by decide) "t" true 10
        (fun _ => {}) (fun _ => "boom")).2.1⟩

end BrowserUse
